import Mathlib

/-!
Shallow embedding of the ThingsPanel ESP32 service plugin
(`internal/handler/handler.go`, `internal/form_json`, `internal/config`).

The Go handlers call external collaborators (the Go standard library's
`encoding/json`, `net/http`, the filesystem, and the platform client).
Those collaborators are modelled as explicit oracle arguments: the
handler logic itself — the branching, validation, request construction
and response mapping that lives in this repository's source — is
translated verbatim.  Every outbound HTTP attempt and every cache /
status side effect is recorded in an explicit effect list so that
"performs zero outbound calls" style properties are statable.
-/

namespace ESP32Plugin

/-- JSON values (the subset the plugin manipulates).  Used for the
form-config document and for request-body field values. -/
inductive Json where
  | null : Json
  | jbool (b : Bool) : Json
  | jnum (n : Int) : Json
  | jstr (s : String) : Json
  | jarr (elems : List Json) : Json
  | jobj (fields : List (String × Json)) : Json
deriving Repr

/-- A JSON field value in an outbound request body: the plugin only ever
puts strings and integers into its request maps. -/
inductive JVal where
  | jvstr (s : String) : JVal
  | jvint (n : Int) : JVal
deriving Repr, DecidableEq

/-- `formjson.Voucher` (internal/form_json): the credential blob shape
used by `handleGetDeviceList`, with Go `json` tags equal to the field
names. -/
structure Voucher where
  ServerURL : String
  Secret : String
  AuthType : String
  ThingsPanelApiKey : String
  ThingsPanelApiURL : String
deriving Repr, DecidableEq

/-- `handler.GetDeviceListRequest` (inbound request from the host). -/
structure GetDeviceListRequest where
  Voucher : String
  ServiceIdentifier : String
  Page : Int
  PageSize : Int
deriving Repr, DecidableEq

/-- An outbound HTTP request as built by `handleGetDeviceList`:
method, URL, the two headers the code sets, and the JSON body as a
key/value field list (Go marshals the `map[string]interface{}` with
sorted keys; the claims are about the field *set*, so insertion order
is kept here). -/
structure HttpRequest where
  method : String
  url : String
  contentType : String
  xToken : String
  body : List (String × JVal)
deriving Repr, DecidableEq

/-- One device record in the remote `/device/list` response. -/
structure RemoteDevice where
  device_name : String
  device_number : String
  description : String
deriving Repr, DecidableEq

/-- `data` object of the remote `/device/list` response. -/
structure DeviceListRemoteData where
  total : Int
  list : List RemoteDevice
deriving Repr, DecidableEq

/-- The decoded remote `/device/list` response
(`{code, msg, data:{total, list}}`). -/
structure DeviceListRemoteResponse where
  code : Int
  msg : String
  data : DeviceListRemoteData
deriving Repr, DecidableEq

/-- `handler.DeviceItem`: the host-side device shape. -/
structure DeviceItem where
  DeviceName : String
  DeviceNumber : String
  Description : String
deriving Repr, DecidableEq

/-- `handler.DeviceListData`. -/
structure DeviceListData where
  List : List DeviceItem
  Total : Int
deriving Repr, DecidableEq

/-- `handler.DeviceListResponse`: the host envelope. -/
structure DeviceListResponse where
  Code : Int
  Message : String
  Data : DeviceListData
deriving Repr, DecidableEq

/-- Outcome of one `handleGetDeviceList` invocation: the returned value
or error, plus every outbound HTTP request the handler attempted. -/
structure ListOutcome where
  result : Except String DeviceListResponse
  calls : List HttpRequest
deriving Repr

/-- The POST request `handleGetDeviceList` builds (lines 183–202 of
handler.go): URL `voucher.ServerURL + "/device/list"`, headers
`Content-Type: application/json` and `x-token: voucher.Secret`, body =
the four inbound fields under their snake_case keys, verbatim. -/
def buildDeviceListRequest (req : GetDeviceListRequest) (voucher : Voucher) :
    HttpRequest :=
  { method := "POST"
    url := voucher.ServerURL ++ "/device/list"
    contentType := "application/json"
    xToken := voucher.Secret
    body := [("voucher", JVal.jvstr req.Voucher),
             ("service_identifier", JVal.jvstr req.ServiceIdentifier),
             ("page", JVal.jvint req.Page),
             ("page_size", JVal.jvint req.PageSize)] }

/-- `handleGetDeviceList` (handler.go lines 167–277).

Oracles stand for the external collaborators:
* `parseVoucher` — the outcome of `json.Unmarshal([]byte(req.Voucher), &voucher)`;
* `transport` — the combined outcome of `client.Do` + `io.ReadAll`
  (success carries the response body bytes as a string);
* `parseResp` — the outcome of `json.Unmarshal(bodyBytes, &responseData)`.

`json.Marshal` of the request map cannot fail for a map of strings and
ints, so that error branch (lines 190–193) is unreachable and not
modelled.  Note the source never inspects `responseData.Code`: the 200
envelope is assembled from `responseData.Data` unconditionally. -/
def handleGetDeviceList (req : GetDeviceListRequest)
    (parseVoucher : String → Except String Voucher)
    (transport : HttpRequest → Except String String)
    (parseResp : String → Except String DeviceListRemoteResponse) :
    ListOutcome :=
  match parseVoucher req.Voucher with
  | Except.error e => { result := Except.error e, calls := [] }
  | Except.ok voucher =>
    let httpReq := buildDeviceListRequest req voucher
    match transport httpReq with
    | Except.error e => { result := Except.error e, calls := [httpReq] }
    | Except.ok bodyBytes =>
      match parseResp bodyBytes with
      | Except.error e => { result := Except.error e, calls := [httpReq] }
      | Except.ok responseData =>
        let deviceListData : DeviceListData :=
          { List := responseData.data.list.map (fun device =>
              { DeviceName := device.device_name
                DeviceNumber := device.device_number
                Description := device.description })
            Total := responseData.data.total }
        { result := Except.ok
            { Code := 200, Message := "获取成功", Data := deviceListData }
          calls := [httpReq] }

/-! ## GetDeviceInfo (handler.go lines 280–388) -/

/-- `handler.GetDeviceInfoRequest`: `Key` is the device code, `Voucher`
the raw credential JSON. -/
structure GetDeviceInfoRequest where
  Key : String
  Voucher : String
deriving Repr, DecidableEq

/-- The anonymous voucher struct `handleGetDeviceInfo` decodes into
(handler.go lines 299–304). -/
structure InfoVoucher where
  ServerURL : String
  Secret : String
  AgentId : String
  ThingsPanelApiKey : String
deriving Repr, DecidableEq

/-- The POST request to `/device/bind` built by `handleGetDeviceInfo`
(lines 317–330): `http.Post` with content type `application/json` and a
`map[string]string` body; no extra auth header. -/
structure BindRequest where
  url : String
  contentType : String
  body : List (String × String)
deriving Repr, DecidableEq

/-- `data` object of the remote `/device/bind` response. -/
structure BindRemoteData where
  device_name : String
  device_number : String
  device_description : String
deriving Repr, DecidableEq

/-- The decoded remote `/device/bind` response (lines 351–359). -/
structure BindRemoteResponse where
  code : Int
  msg : String
  data : BindRemoteData
deriving Repr, DecidableEq

/-- `handler.GetDeviceInfoResponse`: the host envelope for device info. -/
structure GetDeviceInfoResponse where
  Code : Int
  Message : String
  Data : DeviceItem
deriving Repr, DecidableEq

/-- Outcome of one `handleGetDeviceInfo` invocation: result plus every
outbound `/device/bind` request attempted. -/
structure InfoOutcome where
  result : Except String GetDeviceInfoResponse
  calls : List BindRequest
deriving Repr

/-- The `/device/bind` POST request `handleGetDeviceInfo` builds
(handler.go lines 317–330) once all validation has passed. -/
def buildBindRequest (req : GetDeviceInfoRequest) (voucher : InfoVoucher) :
    BindRequest :=
  { url := voucher.ServerURL ++ "/device/bind"
    contentType := "application/json"
    body := [("secret", voucher.Secret),
             ("agent_id", voucher.AgentId),
             ("external_api_key", voucher.ThingsPanelApiKey),
             ("device_code", req.Key)] }

/-- `handleGetDeviceInfo` (handler.go lines 280–388).

Oracles: `parseVoucher` for `json.Unmarshal` of the credential,
`transport` for `http.Post` + `io.ReadAll` (success carries the body
bytes), `parseResp` for `json.Unmarshal` of the response body.
`json.Marshal` of a `map[string]string` cannot fail, so lines 323–327
are unreachable and not modelled. -/
def handleGetDeviceInfo (req : GetDeviceInfoRequest)
    (parseVoucher : String → Except String InfoVoucher)
    (transport : BindRequest → Except String String)
    (parseResp : String → Except String BindRemoteResponse) :
    InfoOutcome :=
  if req.Key = "" then
    { result := Except.error "设备编码不能为空", calls := [] }
  else if req.Voucher = "" then
    { result := Except.error "凭证不能为空", calls := [] }
  else
    match parseVoucher req.Voucher with
    | Except.error e => { result := Except.error e, calls := [] }
    | Except.ok voucher =>
      if voucher.ServerURL = "" ∨ voucher.Secret = "" ∨
          voucher.AgentId = "" ∨ voucher.ThingsPanelApiKey = "" then
        { result := Except.error "Voucher中缺少必要字段", calls := [] }
      else
        let bindReq := buildBindRequest req voucher
        match transport bindReq with
        | Except.error e => { result := Except.error e, calls := [bindReq] }
        | Except.ok bodyBytes =>
          match parseResp bodyBytes with
          | Except.error e => { result := Except.error e, calls := [bindReq] }
          | Except.ok responseData =>
            if responseData.code ≠ 0 then
              { result := Except.error ("第三方接口错误: " ++ responseData.msg)
                calls := [bindReq] }
            else
              { result := Except.ok
                  { Code := 200
                    Message := "获取成功"
                    Data := { DeviceName := responseData.data.device_name
                              DeviceNumber := responseData.data.device_number
                              Description := responseData.data.device_description } }
                calls := [bindReq] }

/-! ## DeviceDisconnect (handler.go lines 117–135) -/

/-- The slice of `platform` device info `handleDeviceDisconnect` uses:
only `DeviceNumber` (the cache key) is read. -/
structure Device where
  DeviceNumber : String
deriving Repr, DecidableEq

/-- Side effects a handler performs against the platform client and
the logger.  `clearDeviceCache` and `sendDeviceStatus` are the two
platform-client mutations `handleDeviceDisconnect` can make; `logged`
records a log line (level, message). -/
inductive Effect where
  | clearDeviceCache (deviceNumber : String) : Effect
  | sendDeviceStatus (deviceID : String) (status : String) : Effect
  | httpCall (url : String) : Effect
  | logged (level : String) (message : String) : Effect
deriving Repr, DecidableEq

/-- `handleDeviceDisconnect` (handler.go lines 117–135).

Oracles: `getDeviceByID` for `h.platform.GetDeviceByID` (error means
lookup failed / not cached), `sendResult` for the outcome of
`h.platform.SendDeviceStatus(req.DeviceID, "0")`.  Returns the Go
error (`none` = nil) and the ordered list of platform effects. -/
def handleDeviceDisconnect (deviceID : String)
    (getDeviceByID : String → Except String Device)
    (sendResult : Except String Unit) :
    Option String × List Effect :=
  let cacheEffects :=
    match getDeviceByID deviceID with
    | Except.ok device => [Effect.clearDeviceCache device.DeviceNumber]
    | Except.error _ => []
  let effects := cacheEffects ++ [Effect.sendDeviceStatus deviceID "0"]
  match sendResult with
  | Except.error e => (some e, effects)
  | Except.ok _ => (none, effects)

/-! ## Notification (handler.go lines 138–164) -/

/-- A decoded `map[string]interface{}` notification message body. -/
def JsonObj : Type := List (String × Json)

/-- Outcome of one `handleNotification` invocation: the Go error
(`none` = nil) plus every effect performed after the initial receipt
log — the handler only logs; it makes no HTTP call and mutates no
cache, which the effect list makes checkable. -/
structure NotifyOutcome where
  result : Option String
  effects : List Effect
deriving Repr

/-- `handleNotification` (handler.go lines 138–164).

Oracle `parseMessage` stands for
`json.Unmarshal([]byte(req.Message), &msgData)`; it fails whenever
`message` is not a JSON object.  Decode failure is returned; every
`messageType` then yields nil: "1" and "2" only log (their bodies are
TODO in the source), unknown types log a warning. -/
def handleNotification (messageType : String) (message : String)
    (parseMessage : String → Except String JsonObj) :
    NotifyOutcome :=
  match parseMessage message with
  | Except.error e =>
    { result := some e
      effects := [Effect.logged "error" "解析通知消息失败"] }
  | Except.ok _ =>
    if messageType = "1" then
      { result := none
        effects := [Effect.logged "info" "处理服务配置修改通知"] }
    else if messageType = "2" then
      { result := none
        effects := [Effect.logged "info" "处理设备配置修改通知"] }
    else
      { result := none
        effects := [Effect.logged "warn" ("未知的通知类型: " ++ messageType)] }

/-! ## GetFormConfig (handler.go lines 75–114) -/

/-- `handler.GetFormConfigRequest`. -/
structure GetFormConfigRequest where
  ProtocolType : String
  DeviceType : String
  FormType : String
deriving Repr, DecidableEq

/-- `readFormConfigByPath` (handler.go lines 96–114).

Oracles: `file` is the outcome of `os.Open` + reading the file at the
fixed path (`none` = open failed); `decode` is the JSON decoder on the
file's contents (`none` = decode error).  On open failure the Go code
returns nil; on decode failure it returns the still-nil `info`
interface (decoding a malformed document into an `interface{}` leaves
it nil), hence `none` in both degraded cases. -/
def readFormConfigByPath (file : Option String)
    (decode : String → Option Json) : Option Json :=
  match file with
  | none => none
  | some content =>
    match decode content with
    | none => none
    | some info => some info

/-- `handleGetFormConfig` (handler.go lines 75–93): `CFG` and `VCR`
return nil with no error, `SVCR` returns the bundled
`form_service_voucher.json` document via `readFormConfigByPath`, any
other form type is an error. -/
def handleGetFormConfig (req : GetFormConfigRequest)
    (file : Option String) (decode : String → Option Json) :
    Except String (Option Json) :=
  if req.FormType = "CFG" then Except.ok none
  else if req.FormType = "VCR" then Except.ok none
  else if req.FormType = "SVCR" then
    Except.ok (readFormConfigByPath file decode)
  else Except.error ("不支持的表单类型: " ++ req.FormType)

/-! ## Voucher JSON codec (internal/form_json) -/

/-- Go `encoding/json` marshalling of `formjson.Voucher`: a JSON object
whose keys are the struct's `json` tags, each mapped to the field's
string value. -/
def marshalVoucher (v : Voucher) : Json :=
  Json.jobj [("ServerURL", Json.jstr v.ServerURL),
             ("Secret", Json.jstr v.Secret),
             ("AuthType", Json.jstr v.AuthType),
             ("ThingsPanelApiKey", Json.jstr v.ThingsPanelApiKey),
             ("ThingsPanelApiURL", Json.jstr v.ThingsPanelApiURL)]

/-- Read a string field from a JSON object the way Go `encoding/json`
unmarshals into a `string` struct field: absent field (or non-string
value, which would instead error) leaves the zero value `""`. -/
def jsonStringField (fields : List (String × Json)) (key : String) : String :=
  match fields.lookup key with
  | some (Json.jstr s) => s
  | _ => ""

/-- Go `encoding/json` unmarshalling of a JSON value into
`formjson.Voucher`: each tagged field is taken from the object,
missing fields become empty strings; a non-object value would error in
Go and yields the zero voucher here. -/
def unmarshalVoucher (j : Json) : Voucher :=
  match j with
  | Json.jobj fields =>
    { ServerURL := jsonStringField fields "ServerURL"
      Secret := jsonStringField fields "Secret"
      AuthType := jsonStringField fields "AuthType"
      ThingsPanelApiKey := jsonStringField fields "ThingsPanelApiKey"
      ThingsPanelApiURL := jsonStringField fields "ThingsPanelApiURL" }
  | _ =>
    { ServerURL := "", Secret := "", AuthType := ""
      ThingsPanelApiKey := "", ThingsPanelApiURL := "" }

/-! ## Theorems -/

/-- C1, counterexample.  A `GetDeviceList` run in which the transport
succeeds and the decoded remote response carries the non-zero code 5
does NOT surface a local error: the handler returns the successful
envelope with code 200, because `handleGetDeviceList` never inspects
`responseData.Code`. -/
theorem getDeviceList_remoteCode_cex :
    (handleGetDeviceList
      { Voucher := "raw-voucher", ServiceIdentifier := "svc", Page := 1, PageSize := 10 }
      (fun _ => Except.ok
        { ServerURL := "http://host", Secret := "sec", AuthType := ""
          ThingsPanelApiKey := "", ThingsPanelApiURL := "" })
      (fun _ => Except.ok "response-bytes")
      (fun _ => Except.ok
        { code := 5, msg := "remote failure", data := { total := 0, list := [] } })).result
    = Except.ok { Code := 200, Message := "获取成功", Data := { List := [], Total := 0 } } :=
  rfl

/-- C1, amended.  Whenever the voucher decodes, the transport succeeds
and the remote response decodes, `handleGetDeviceList` returns the
success envelope with code 200 built from the response's `data` —
regardless of the remote `code`, which it never inspects. -/
theorem getDeviceList_ignoresRemoteCode (req : GetDeviceListRequest)
    (pv : String → Except String Voucher) (voucher : Voucher)
    (t : HttpRequest → Except String String)
    (p : String → Except String DeviceListRemoteResponse)
    (body : String) (resp : DeviceListRemoteResponse)
    (hpv : pv req.Voucher = Except.ok voucher)
    (ht : t (buildDeviceListRequest req voucher) = Except.ok body)
    (hp : p body = Except.ok resp) :
    (handleGetDeviceList req pv t p).result =
      Except.ok
        { Code := 200
          Message := "获取成功"
          Data := { List := resp.data.list.map (fun device =>
                      { DeviceName := device.device_name
                        DeviceNumber := device.device_number
                        Description := device.description })
                    Total := resp.data.total } } := by
  simp [handleGetDeviceList, hpv, ht, hp]

/-- Witness for `getDeviceList_ignoresRemoteCode` at a concrete input
with remote code 7. -/
theorem getDeviceList_ignoresRemoteCode_witness :
    (handleGetDeviceList
      { Voucher := "raw", ServiceIdentifier := "s", Page := 2, PageSize := 5 }
      (fun _ => Except.ok
        { ServerURL := "http://h", Secret := "k", AuthType := ""
          ThingsPanelApiKey := "", ThingsPanelApiURL := "" })
      (fun _ => Except.ok "bytes")
      (fun _ => Except.ok
        { code := 7, msg := "denied"
          data := { total := 1
                    list := [{ device_name := "n", device_number := "d", description := "x" }] } })).result
    = Except.ok
        { Code := 200
          Message := "获取成功"
          Data := { List := [{ DeviceName := "n", DeviceNumber := "d", Description := "x" }]
                    Total := 1 } } :=
  getDeviceList_ignoresRemoteCode
    { Voucher := "raw", ServiceIdentifier := "s", Page := 2, PageSize := 5 }
    (fun _ => Except.ok
      { ServerURL := "http://h", Secret := "k", AuthType := ""
        ThingsPanelApiKey := "", ThingsPanelApiURL := "" })
    { ServerURL := "http://h", Secret := "k", AuthType := ""
      ThingsPanelApiKey := "", ThingsPanelApiURL := "" }
    (fun _ => Except.ok "bytes")
    (fun _ => Except.ok
      { code := 7, msg := "denied"
        data := { total := 1
                  list := [{ device_name := "n", device_number := "d", description := "x" }] } })
    "bytes"
    { code := 7, msg := "denied"
      data := { total := 1
                list := [{ device_name := "n", device_number := "d", description := "x" }] } }
    rfl rfl rfl

/-- C2.  Whenever the voucher decodes, the one outbound request
`handleGetDeviceList` attempts is a POST to
`voucher.ServerURL ++ "/device/list"` with `x-token` equal to
`voucher.Secret` and a JSON body holding exactly the four inbound
fields `voucher`, `service_identifier`, `page`, `page_size`
verbatim. -/
theorem getDeviceList_request_shape (req : GetDeviceListRequest)
    (pv : String → Except String Voucher) (voucher : Voucher)
    (t : HttpRequest → Except String String)
    (p : String → Except String DeviceListRemoteResponse)
    (hpv : pv req.Voucher = Except.ok voucher) :
    (handleGetDeviceList req pv t p).calls =
      [{ method := "POST"
         url := voucher.ServerURL ++ "/device/list"
         contentType := "application/json"
         xToken := voucher.Secret
         body := [("voucher", JVal.jvstr req.Voucher),
                  ("service_identifier", JVal.jvstr req.ServiceIdentifier),
                  ("page", JVal.jvint req.Page),
                  ("page_size", JVal.jvint req.PageSize)] }] := by
  simp only [handleGetDeviceList, hpv]
  cases ht : t (buildDeviceListRequest req voucher) with
  | error e => simp [buildDeviceListRequest]
  | ok bodyBytes =>
    cases hp : p bodyBytes with
    | error e => simp [hp, buildDeviceListRequest]
    | ok responseData => simp [hp, buildDeviceListRequest]

/-- Witness for `getDeviceList_request_shape` at a concrete input. -/
theorem getDeviceList_request_shape_witness :
    (handleGetDeviceList
      { Voucher := "vraw", ServiceIdentifier := "esp32", Page := 3, PageSize := 20 }
      (fun _ => Except.ok
        { ServerURL := "http://base", Secret := "tok", AuthType := "a"
          ThingsPanelApiKey := "k", ThingsPanelApiURL := "u" })
      (fun _ => Except.error "down")
      (fun _ => Except.error "unused")).calls =
      [{ method := "POST"
         url := "http://base/device/list"
         contentType := "application/json"
         xToken := "tok"
         body := [("voucher", JVal.jvstr "vraw"),
                  ("service_identifier", JVal.jvstr "esp32"),
                  ("page", JVal.jvint 3),
                  ("page_size", JVal.jvint 20)] }] :=
  getDeviceList_request_shape
    { Voucher := "vraw", ServiceIdentifier := "esp32", Page := 3, PageSize := 20 }
    (fun _ => Except.ok
      { ServerURL := "http://base", Secret := "tok", AuthType := "a"
        ThingsPanelApiKey := "k", ThingsPanelApiURL := "u" })
    { ServerURL := "http://base", Secret := "tok", AuthType := "a"
      ThingsPanelApiKey := "k", ThingsPanelApiURL := "u" }
    (fun _ => Except.error "down")
    (fun _ => Except.error "unused")
    rfl

/-- C7, counterexample.  A voucher that decodes with empty `ServerURL`
and empty `Secret` (as Go's `json.Unmarshal` produces for an empty
JSON object) is not rejected: the outbound call is still attempted,
with URL `"/device/list"` and empty `x-token`. -/
theorem getDeviceList_noCheck_cex :
    (handleGetDeviceList
      { Voucher := "empty-object", ServiceIdentifier := "", Page := 1, PageSize := 10 }
      (fun _ => Except.ok
        { ServerURL := "", Secret := "", AuthType := ""
          ThingsPanelApiKey := "", ThingsPanelApiURL := "" })
      (fun _ => Except.error "connection refused")
      (fun _ => Except.error "unused")).calls =
      [{ method := "POST"
         url := "/device/list"
         contentType := "application/json"
         xToken := ""
         body := [("voucher", JVal.jvstr "empty-object"),
                  ("service_identifier", JVal.jvstr ""),
                  ("page", JVal.jvint 1),
                  ("page_size", JVal.jvint 10)] }] :=
  rfl

/-- C7, amended.  `handleGetDeviceList` performs no non-emptiness check
on the decoded voucher: even when both `ServerURL` and `Secret` are
empty, the outbound request is attempted (exactly one call, carrying
the empty values). -/
theorem getDeviceList_callsDespiteEmptyCredential (req : GetDeviceListRequest)
    (pv : String → Except String Voucher) (voucher : Voucher)
    (t : HttpRequest → Except String String)
    (p : String → Except String DeviceListRemoteResponse)
    (hpv : pv req.Voucher = Except.ok voucher)
    (hurl : voucher.ServerURL = "") (hsec : voucher.Secret = "") :
    (handleGetDeviceList req pv t p).calls = [buildDeviceListRequest req voucher] ∧
    (buildDeviceListRequest req voucher).url = "/device/list" ∧
    (buildDeviceListRequest req voucher).xToken = "" := by
  refine ⟨?_, ?_, ?_⟩
  · simp only [handleGetDeviceList, hpv]
    cases ht : t (buildDeviceListRequest req voucher) with
    | error e => simp
    | ok bodyBytes =>
      cases hp : p bodyBytes with
      | error e => simp [hp]
      | ok responseData => simp [hp]
  · simp [buildDeviceListRequest, hurl]
  · simp [buildDeviceListRequest, hsec]

/-- Witness for `getDeviceList_callsDespiteEmptyCredential` at a
concrete input. -/
theorem getDeviceList_callsDespiteEmptyCredential_witness :
    (handleGetDeviceList
      { Voucher := "eo", ServiceIdentifier := "x", Page := 0, PageSize := 0 }
      (fun _ => Except.ok
        { ServerURL := "", Secret := "", AuthType := ""
          ThingsPanelApiKey := "", ThingsPanelApiURL := "" })
      (fun _ => Except.error "refused")
      (fun _ => Except.error "unused")).calls =
      [buildDeviceListRequest
        { Voucher := "eo", ServiceIdentifier := "x", Page := 0, PageSize := 0 }
        { ServerURL := "", Secret := "", AuthType := ""
          ThingsPanelApiKey := "", ThingsPanelApiURL := "" }] :=
  (getDeviceList_callsDespiteEmptyCredential
    { Voucher := "eo", ServiceIdentifier := "x", Page := 0, PageSize := 0 }
    (fun _ => Except.ok
      { ServerURL := "", Secret := "", AuthType := ""
        ThingsPanelApiKey := "", ThingsPanelApiURL := "" })
    { ServerURL := "", Secret := "", AuthType := ""
      ThingsPanelApiKey := "", ThingsPanelApiURL := "" }
    (fun _ => Except.error "refused")
    (fun _ => Except.error "unused")
    rfl rfl rfl).1

/-- C3.  `handleGetDeviceInfo` returns a local validation error and
attempts zero outbound calls whenever the device code is empty, the
voucher string is empty, or the decoded voucher has an empty
`ServerURL`, `Secret`, `AgentId` or `ThingsPanelApiKey`. -/
theorem getDeviceInfo_validation (req : GetDeviceInfoRequest)
    (pv : String → Except String InfoVoucher)
    (t : BindRequest → Except String String)
    (p : String → Except String BindRemoteResponse) (v : InfoVoucher)
    (h : req.Key = "" ∨ req.Voucher = "" ∨
         (pv req.Voucher = Except.ok v ∧
           (v.ServerURL = "" ∨ v.Secret = "" ∨
            v.AgentId = "" ∨ v.ThingsPanelApiKey = ""))) :
    (∃ e, (handleGetDeviceInfo req pv t p).result = Except.error e) ∧
    (handleGetDeviceInfo req pv t p).calls = [] := by
  unfold handleGetDeviceInfo
  by_cases hk : req.Key = ""
  · simp [hk]
  · by_cases hv : req.Voucher = ""
    · simp [hk, hv]
    · rcases h with h | h | ⟨hpv, hf⟩
      · exact absurd h hk
      · exact absurd h hv
      · simp only [hk, hv, if_neg, ite_false, hpv]
        rw [if_pos hf]
        simp

/-- Witness for `getDeviceInfo_validation`: a decoded voucher with an
empty `AgentId` yields an error and no outbound call. -/
theorem getDeviceInfo_validation_witness :
    (∃ e, (handleGetDeviceInfo { Key := "dev-7", Voucher := "raw" }
      (fun _ => Except.ok
        { ServerURL := "http://h", Secret := "s", AgentId := "", ThingsPanelApiKey := "k" })
      (fun _ => Except.ok "bytes")
      (fun _ => Except.error "unused")).result = Except.error e) ∧
    (handleGetDeviceInfo { Key := "dev-7", Voucher := "raw" }
      (fun _ => Except.ok
        { ServerURL := "http://h", Secret := "s", AgentId := "", ThingsPanelApiKey := "k" })
      (fun _ => Except.ok "bytes")
      (fun _ => Except.error "unused")).calls = [] :=
  getDeviceInfo_validation { Key := "dev-7", Voucher := "raw" }
    (fun _ => Except.ok
      { ServerURL := "http://h", Secret := "s", AgentId := "", ThingsPanelApiKey := "k" })
    (fun _ => Except.ok "bytes")
    (fun _ => Except.error "unused")
    { ServerURL := "http://h", Secret := "s", AgentId := "", ThingsPanelApiKey := "k" }
    (Or.inr (Or.inr ⟨rfl, Or.inr (Or.inr (Or.inl rfl))⟩))

/-- C4.  On the fully validated `handleGetDeviceInfo` path where the
`/device/bind` response decodes, a non-zero remote code yields the
error `"第三方接口错误: " ++ msg` (the remote message is contained in the
error) and no success envelope; the code-200 success envelope is
returned exactly when the remote code is zero. -/
theorem getDeviceInfo_remoteCode (req : GetDeviceInfoRequest)
    (pv : String → Except String InfoVoucher)
    (t : BindRequest → Except String String)
    (p : String → Except String BindRemoteResponse)
    (v : InfoVoucher) (body : String) (resp : BindRemoteResponse)
    (hk : req.Key ≠ "") (hv : req.Voucher ≠ "")
    (hpv : pv req.Voucher = Except.ok v)
    (hf : ¬(v.ServerURL = "" ∨ v.Secret = "" ∨
            v.AgentId = "" ∨ v.ThingsPanelApiKey = ""))
    (ht : t (buildBindRequest req v) = Except.ok body)
    (hp : p body = Except.ok resp) :
    (resp.code ≠ 0 →
      (handleGetDeviceInfo req pv t p).result =
        Except.error ("第三方接口错误: " ++ resp.msg)) ∧
    (resp.code = 0 →
      (handleGetDeviceInfo req pv t p).result =
        Except.ok
          { Code := 200
            Message := "获取成功"
            Data := { DeviceName := resp.data.device_name
                      DeviceNumber := resp.data.device_number
                      Description := resp.data.device_description } }) := by
  unfold handleGetDeviceInfo
  simp only [hk, hv, ite_false, if_neg, hpv]
  rw [if_neg hf]
  simp only [ht, hp]
  constructor
  · intro hc
    rw [if_pos hc]
  · intro hc
    rw [if_neg (by simp [hc])]

/-- Witness for `getDeviceInfo_remoteCode`: remote code 5 with message
`"not found"` yields exactly that error. -/
theorem getDeviceInfo_remoteCode_witness :
    (handleGetDeviceInfo { Key := "dev-1", Voucher := "raw" }
      (fun _ => Except.ok
        { ServerURL := "http://h", Secret := "s", AgentId := "a", ThingsPanelApiKey := "k" })
      (fun _ => Except.ok "bytes")
      (fun _ => Except.ok
        { code := 5, msg := "not found"
          data := { device_name := "", device_number := "", device_description := "" } })).result
    = Except.error "第三方接口错误: not found" :=
  (getDeviceInfo_remoteCode { Key := "dev-1", Voucher := "raw" }
    (fun _ => Except.ok
      { ServerURL := "http://h", Secret := "s", AgentId := "a", ThingsPanelApiKey := "k" })
    (fun _ => Except.ok "bytes")
    (fun _ => Except.ok
      { code := 5, msg := "not found"
        data := { device_name := "", device_number := "", device_description := "" } })
    { ServerURL := "http://h", Secret := "s", AgentId := "a", ThingsPanelApiKey := "k" }
    "bytes"
    { code := 5, msg := "not found"
      data := { device_name := "", device_number := "", device_description := "" } }
    (by decide) (by decide) rfl (by decide) rfl rfl).1 (by decide)

/-- Recognises the offline-status push effect. -/
def Effect.isSendStatus : Effect → Bool
  | Effect.sendDeviceStatus _ _ => true
  | _ => false

/-- C5.  `handleDeviceDisconnect` always performs the offline push
(`SendDeviceStatus deviceID "0"`) exactly once, whatever the cache
lookup returned; it returns an error exactly when the push fails; and
a cache-clear effect for number `n` occurs exactly when the lookup
succeeded with a device whose `DeviceNumber` is `n`. -/
theorem deviceDisconnect_spec (deviceID : String)
    (g : String → Except String Device) (s : Except String Unit) :
    ((handleDeviceDisconnect deviceID g s).2.filter Effect.isSendStatus =
      [Effect.sendDeviceStatus deviceID "0"]) ∧
    ((∃ e, (handleDeviceDisconnect deviceID g s).1 = some e) ↔
      ∃ e, s = Except.error e) ∧
    (∀ n, Effect.clearDeviceCache n ∈ (handleDeviceDisconnect deviceID g s).2 ↔
      ∃ d, g deviceID = Except.ok d ∧ d.DeviceNumber = n) := by
  cases hg : g deviceID with
  | error e =>
    cases s with
    | error e2 => simp [handleDeviceDisconnect, hg, Effect.isSendStatus]
    | ok u => simp [handleDeviceDisconnect, hg, Effect.isSendStatus]
  | ok d =>
    cases s with
    | error e2 =>
      refine ⟨?_, ?_, fun n => ?_⟩
      · simp [handleDeviceDisconnect, hg, Effect.isSendStatus]
      · simp [handleDeviceDisconnect, hg]
      · simp only [handleDeviceDisconnect, hg]
        simp
        exact eq_comm
    | ok u =>
      refine ⟨?_, ?_, fun n => ?_⟩
      · simp [handleDeviceDisconnect, hg, Effect.isSendStatus]
      · simp [handleDeviceDisconnect, hg]
      · simp only [handleDeviceDisconnect, hg]
        simp
        exact eq_comm

/-- Witness for `deviceDisconnect_spec` at a concrete input: lookup
misses the cache, the push succeeds, no error is returned. -/
theorem deviceDisconnect_spec_witness :
    (handleDeviceDisconnect "dev-9"
        (fun _ => Except.error "not cached") (Except.ok ())).2.filter
        Effect.isSendStatus = [Effect.sendDeviceStatus "dev-9" "0"] :=
  (deviceDisconnect_spec "dev-9" (fun _ => Except.error "not cached")
    (Except.ok ())).1

/-- C6.  `handleNotification` returns the decode error when the message
does not parse as a JSON object, and returns nil (`none`) for every
`messageType` — recognized or not — when it does parse. -/
theorem notification_result (messageType message : String)
    (parse : String → Except String JsonObj) :
    (∀ e, parse message = Except.error e →
      (handleNotification messageType message parse).result = some e) ∧
    (∀ obj, parse message = Except.ok obj →
      (handleNotification messageType message parse).result = none) := by
  constructor
  · intro e he
    simp [handleNotification, he]
  · intro obj hobj
    by_cases h1 : messageType = "1"
    · simp [handleNotification, hobj, h1]
    · by_cases h2 : messageType = "2"
      · simp [handleNotification, hobj, h1, h2]
      · simp [handleNotification, hobj, h1, h2]

/-- Witness for `notification_result`: the unknown type `"9"` with a
parsed message returns no error. -/
theorem notification_result_witness :
    (handleNotification "9" "parsed-object"
      (fun _ => Except.ok ([] : JsonObj))).result = none :=
  (notification_result "9" "parsed-object" (fun _ => Except.ok [])).2 [] rfl

/-- C10.  When the message parses, `handleNotification` succeeds and
its only effects are log lines, for every `messageType`: no HTTP call
and no cache or status mutation is performed. -/
theorem notification_frame (messageType message : String)
    (parse : String → Except String JsonObj) (obj : JsonObj)
    (h : parse message = Except.ok obj) :
    (handleNotification messageType message parse).result = none ∧
    ∀ e ∈ (handleNotification messageType message parse).effects,
      ∃ lvl m, e = Effect.logged lvl m := by
  by_cases h1 : messageType = "1"
  · simp [handleNotification, h, h1]
  · by_cases h2 : messageType = "2"
    · simp [handleNotification, h, h1, h2]
    · simp [handleNotification, h, h1, h2]

/-- Witness for `notification_frame` at the recognized type `"1"`. -/
theorem notification_frame_witness :
    (handleNotification "1" "parsed-object"
      (fun _ => Except.ok ([] : JsonObj))).result = none :=
  (notification_frame "1" "parsed-object" (fun _ => Except.ok []) [] rfl).1

/-- C8.  `handleGetFormConfig`: `CFG` and `VCR` yield a nil result with
no error; `SVCR` yields the decoded bundled document, degrading to nil
with no error when the file is missing or fails to decode; any other
form type is an unsupported-form-type error. -/
theorem getFormConfig_spec (req : GetFormConfigRequest)
    (file : Option String) (decode : String → Option Json) :
    (req.FormType = "CFG" → handleGetFormConfig req file decode = Except.ok none) ∧
    (req.FormType = "VCR" → handleGetFormConfig req file decode = Except.ok none) ∧
    (req.FormType = "SVCR" →
      handleGetFormConfig req file decode =
        Except.ok (readFormConfigByPath file decode) ∧
      (file = none → handleGetFormConfig req file decode = Except.ok none) ∧
      (∀ c, file = some c → decode c = none →
        handleGetFormConfig req file decode = Except.ok none) ∧
      (∀ c j, file = some c → decode c = some j →
        handleGetFormConfig req file decode = Except.ok (some j))) ∧
    (req.FormType ≠ "CFG" → req.FormType ≠ "VCR" → req.FormType ≠ "SVCR" →
      handleGetFormConfig req file decode =
        Except.error ("不支持的表单类型: " ++ req.FormType)) := by
  refine ⟨?_, ?_, ?_, ?_⟩
  · intro h
    simp [handleGetFormConfig, h]
  · intro h
    simp [handleGetFormConfig, h]
  · intro h
    refine ⟨by simp [handleGetFormConfig, h], ?_, ?_, ?_⟩
    · intro hf
      simp [handleGetFormConfig, h, readFormConfigByPath, hf]
    · intro c hf hd
      simp [handleGetFormConfig, h, readFormConfigByPath, hf, hd]
    · intro c j hf hd
      simp [handleGetFormConfig, h, readFormConfigByPath, hf, hd]
  · intro h1 h2 h3
    simp [handleGetFormConfig, h1, h2, h3]

/-- Witness for `getFormConfig_spec`: `SVCR` with a present,
well-formed asset returns its decoded content. -/
theorem getFormConfig_spec_witness :
    handleGetFormConfig
      { ProtocolType := "ESP32", DeviceType := "1", FormType := "SVCR" }
      (some "doc-bytes") (fun _ => some (Json.jstr "schema")) =
      Except.ok (some (Json.jstr "schema")) :=
  ((getFormConfig_spec
      { ProtocolType := "ESP32", DeviceType := "1", FormType := "SVCR" }
      (some "doc-bytes") (fun _ => some (Json.jstr "schema"))).2.2.1
    rfl).2.2.2 "doc-bytes" (Json.jstr "schema") rfl rfl

/-- C9.  Marshalling a `formjson.Voucher` to JSON and unmarshalling the
result restores every field. -/
theorem voucher_roundtrip (v : Voucher) :
    unmarshalVoucher (marshalVoucher v) = v := by
  cases v
  simp [marshalVoucher, unmarshalVoucher, jsonStringField, List.lookup]

/-- Witness for `voucher_roundtrip` at a concrete voucher. -/
theorem voucher_roundtrip_witness :
    unmarshalVoucher (marshalVoucher
      { ServerURL := "http://h", Secret := "s", AuthType := "t"
        ThingsPanelApiKey := "k", ThingsPanelApiURL := "u" }) =
      { ServerURL := "http://h", Secret := "s", AuthType := "t"
        ThingsPanelApiKey := "k", ThingsPanelApiURL := "u" } :=
  voucher_roundtrip
    { ServerURL := "http://h", Secret := "s", AuthType := "t"
      ThingsPanelApiKey := "k", ThingsPanelApiURL := "u" }

end ESP32Plugin
